import Mathlib

/-!
Shallow embedding of `drivers/misc/inv_mpu/accel/lsm303dlx_a.c`, the ST
LSM303DLH/DLM accelerometer slave driver: the per-configuration setter
functions (`set_ths`, `set_dur`, `set_irq`, `set_odr`, `set_fsr`), the
suspend/resume register-programming sequences, the sample read path, and
one-time initialization.

Modelling conventions:
- The target is the repository's 32-bit ARM kernel: `long`, `int` and
  `unsigned int` are all 32 bits wide.
- C `long` request values are modelled as `Int`; the narrowing casts the
  driver performs are made explicit: conversion to `unsigned int` is
  `x % 2^32` and conversion to `unsigned char` is `x % 256` (C
  conversion to an unsigned type is reduction mod 2^w).
- In `set_dur`, the operands of `dur * config->odr` are `long` and
  `unsigned int`; since 32-bit `long` cannot represent every
  `unsigned int`, the usual arithmetic conversions take both to 32-bit
  `unsigned long`, so the multiplication wraps mod 2^32 and the
  division by `1000000L` is unsigned: the whole computation is `Nat`
  arithmetic mod 2^32.
- `struct lsm303dlx_a_config` fields (`unsigned int` / `unsigned char`)
  are modelled as `Nat`; every assignment to them goes through the
  explicit modular cast of the stored expression, mirroring the source.
- Bus I/O (`inv_serial_single_write` / `inv_serial_read`) is modelled by
  an environment `env : Nat → Int` giving the transport status of the
  i-th bus operation issued by the function under study, together with an
  explicit trace of the operations actually issued (register and value).
-/

namespace Lsm303

/-- Device register addresses used by the driver (from the `#define` block). -/
def LSM303DLx_CTRL_REG1 : Nat := 0x20
def LSM303DLx_CTRL_REG2 : Nat := 0x21
def LSM303DLx_CTRL_REG3 : Nat := 0x22
def LSM303DLx_CTRL_REG4 : Nat := 0x23
def LSM303DLx_HP_FILTER_RESET : Nat := 0x25
def LSM303DLx_STATUS_REG : Nat := 0x27
def LSM303DLx_INT1_CFG : Nat := 0x30
def LSM303DLx_INT1_THS : Nat := 0x32
def LSM303DLx_INT1_DURATION : Nat := 0x33
def LSM303DLx_PWR_MODE_NORMAL : Nat := 0x20
def LSM303DLx_MAX_DUR : Nat := 0x7F

/-- Modelled from the spec: the slave-IRQ type enumeration from
`linux/mpu.h` (not under `src/`); the spec lists the valid values as
NONE, MOTION, DATA_READY, in that order. -/
def MPU_SLAVE_IRQ_TYPE_NONE : Nat := 0
def MPU_SLAVE_IRQ_TYPE_MOTION : Nat := 1
def MPU_SLAVE_IRQ_TYPE_DATA_READY : Nat := 2

/-- C conversion of a `long` value to `unsigned int`: reduction mod 2^32
(on `Int`, `%` is Euclidean `emod`, whose result is the non-negative
representative, exactly the C unsigned conversion). -/
def uintCast (x : Int) : Nat := (x % 4294967296).toNat

/-- C conversion of a `long` value to `unsigned char`: reduction mod 2^8. -/
def ucharCast (x : Int) : Nat := (x % 256).toNat

/-- `struct lsm303dlx_a_config`: physical fields (`unsigned int`) and the
derived register encodings (`unsigned char`). -/
structure lsm303dlx_a_config where
  odr : Nat
  fsr : Nat
  ths : Nat
  dur : Nat
  reg_ths : Nat
  reg_dur : Nat
  ctrl_reg1 : Nat
  irq_type : Nat
  mot_int1_cfg : Nat
deriving DecidableEq

/-- `struct lsm303dlx_a_private_data`: the suspend and resume configurations. -/
structure lsm303dlx_a_private_data where
  suspend : lsm303dlx_a_config
  resume : lsm303dlx_a_config
deriving DecidableEq

/-- The all-zero configuration produced by `kzalloc` in `lsm303dlx_a_init`. -/
def zeroConfig : lsm303dlx_a_config :=
  { odr := 0, fsr := 0, ths := 0, dur := 0, reg_ths := 0, reg_dur := 0
  , ctrl_reg1 := 0, irq_type := 0, mot_int1_cfg := 0 }

/-- `lsm303dlx_a_set_ths` (configuration part). The C code is
  `if ((unsigned int) ths >= config->fsr) ths = (long) config->fsr - 1;`
  `if (ths < 0) ths = 0;`
  `config->ths = ths;`
  `config->reg_ths = (unsigned char)((ths * 128L) / (config->fsr));`
The comparison casts `ths` to `unsigned int` first; the non-negative
clamp `if (ths < 0) ths = 0` is `Int.toNat`; the final value is
non-negative so the `long` arithmetic of the last line is `Nat`
arithmetic, with the store-time casts to the `unsigned int` field `ths`
and the `unsigned char` field `reg_ths` made explicit. -/
def lsm303dlx_a_set_ths (c : lsm303dlx_a_config) (ths : Int) : lsm303dlx_a_config :=
  let ths1 : Int := if uintCast ths ≥ c.fsr then (c.fsr : Int) - 1 else ths
  let ths2 : Nat := ths1.toNat
  { c with ths := ths2 % 4294967296
         , reg_ths := (ths2 * 128 / c.fsr) % 256 }

/-- `lsm303dlx_a_set_dur` (configuration part). The C code is
  `long reg_dur = (dur * config->odr) / 1000000L;`
  `config->dur = dur;`
  `if (reg_dur > LSM303DLx_MAX_DUR) reg_dur = LSM303DLx_MAX_DUR;`
  `config->reg_dur = (unsigned char) reg_dur;`
On the 32-bit target, `dur * config->odr` converts both operands to
32-bit `unsigned long` (so `dur` becomes `dur mod 2^32` and the product
wraps mod 2^32) and `/ 1000000L` is the unsigned division; the quotient
is at most `(2^32 - 1) / 10^6 = 4294 < 2^31`, so its value is unchanged
by the conversion back to the signed `long` `reg_dur`, and the `Nat`
model below is exact. -/
def lsm303dlx_a_set_dur (c : lsm303dlx_a_config) (dur : Int) : lsm303dlx_a_config :=
  let reg_dur : Nat := uintCast dur * c.odr % 4294967296 / 1000000
  let reg_dur2 : Nat := if reg_dur > LSM303DLx_MAX_DUR then LSM303DLx_MAX_DUR else reg_dur
  { c with dur := uintCast dur
         , reg_dur := reg_dur2 % 256 }

/-- `lsm303dlx_a_set_irq` (configuration part): stores the requested type
into the `unsigned char` field `irq_type`. The register pair it writes in
apply mode is `irqRegPair` below. -/
def lsm303dlx_a_set_irq (c : lsm303dlx_a_config) (irq_type : Int) : lsm303dlx_a_config :=
  { c with irq_type := ucharCast irq_type }

/-- The (CTRL_REG3, INT1_CFG) byte pair derived from an irq type, as
computed identically in `lsm303dlx_a_set_irq`, `lsm303dlx_a_suspend` and
`lsm303dlx_a_resume`: DATA_READY gives (0x02, 0x00), MOTION gives
(0x00, mot_int1_cfg), anything else gives (0x00, 0x00). -/
def irqRegPair (irq_type : Nat) (mot_int1_cfg : Nat) : Nat × Nat :=
  if irq_type = MPU_SLAVE_IRQ_TYPE_DATA_READY then (0x02, 0x00)
  else if irq_type = MPU_SLAVE_IRQ_TYPE_MOTION then (0x00, mot_int1_cfg)
  else (0x00, 0x00)

/-- The ODR tier selection of `lsm303dlx_a_set_odr`: the canonical rate
stored into `config->odr` and the rate/power bits, straight from the
descending if-chain of the source. -/
def odrBits (odr : Int) : Nat × Nat :=
  if odr > 400000 then (1000000, LSM303DLx_PWR_MODE_NORMAL ||| 0x18)
  else if odr > 100000 then (400000, LSM303DLx_PWR_MODE_NORMAL ||| 0x10)
  else if odr > 50000 then (100000, LSM303DLx_PWR_MODE_NORMAL ||| 0x08)
  else if odr > 10000 then (50000, LSM303DLx_PWR_MODE_NORMAL ||| 0x00)
  else if odr > 5000 then (10000, 0xC0)
  else if odr > 2000 then (5000, 0xA0)
  else if odr > 1000 then (2000, 0x80)
  else if odr > 500 then (1000, 0x60)
  else if odr > 0 then (500, 0x40)
  else (0, 0)

/-- `lsm303dlx_a_set_odr` (configuration part): selects the tier, then
  `config->ctrl_reg1 = bits | (config->ctrl_reg1 & 0x7);`
and then calls `lsm303dlx_a_set_dur(..., config->dur)` to re-derive the
duration encoding against the new ODR. -/
def lsm303dlx_a_set_odr (c : lsm303dlx_a_config) (odr : Int) : lsm303dlx_a_config :=
  let vb := odrBits odr
  let c1 := { c with odr := vb.1
                   , ctrl_reg1 := vb.2 ||| (c.ctrl_reg1 &&& 0x7) }
  lsm303dlx_a_set_dur c1 (c1.dur : Int)

/-- The CTRL_REG4 byte computed inside `lsm303dlx_a_set_fsr` (the `reg1`
local written when `apply` is set): base 0x40, with `|= 0x30` on the
4096 tier and `|= 0x10` on the 8192 tier. -/
def setFsrByte (fsr : Int) : Nat :=
  if fsr ≤ 2048 then 0x40
  else if fsr ≤ 4096 then 0x40 ||| 0x30
  else 0x40 ||| 0x10

/-- `lsm303dlx_a_set_fsr` (configuration part): selects the stored FSR
tier, then calls `lsm303dlx_a_set_ths(..., config->ths)` with the updated
`fsr`, forcing a threshold re-clamp and re-encode against the new FSR. -/
def lsm303dlx_a_set_fsr (c : lsm303dlx_a_config) (fsr : Int) : lsm303dlx_a_config :=
  let fsrv : Nat := if fsr ≤ 2048 then 2048 else if fsr ≤ 4096 then 4096 else 8192
  let c1 := { c with fsr := fsrv }
  lsm303dlx_a_set_ths c1 (c1.ths : Int)

/-- The CTRL_REG4 byte recomputed from the stored `fsr` by both
`lsm303dlx_a_suspend` and `lsm303dlx_a_resume`: base 0x40, with
`|= 0x30` when `fsr == 8192` and `|= 0x10` when `fsr == 4096`. -/
def applyFsrByte (fsr : Nat) : Nat :=
  if fsr = 8192 then 0x40 ||| 0x30
  else if fsr = 4096 then 0x40 ||| 0x10
  else 0x40

/-- A bus operation issued by the driver: a single-register write of one
byte, or a one-byte register read. -/
inductive BusOp where
  | wr (reg : Nat) (val : Nat)
  | rd (reg : Nat)
deriving DecidableEq

/-- The register an operation addresses. -/
def busReg : BusOp → Nat
  | .wr r _ => r
  | .rd r => r

/-- `lsm303dlx_a_suspend`: issues its whole sequence unconditionally,
overwriting `result` at every step, and returns the status of the final
`HP_FILTER_RESET` read. `env i` is the transport status of the i-th
operation; the returned trace lists the operations in issue order. -/
def lsm303dlx_a_suspend (c : lsm303dlx_a_config) (env : Nat → Int) :
    Int × List BusOp :=
  let r := irqRegPair c.irq_type c.mot_int1_cfg
  (env 7,
   [BusOp.wr LSM303DLx_CTRL_REG1 c.ctrl_reg1,
    BusOp.wr LSM303DLx_CTRL_REG2 0x0f,
    BusOp.wr LSM303DLx_CTRL_REG4 (applyFsrByte c.fsr),
    BusOp.wr LSM303DLx_INT1_THS c.reg_ths,
    BusOp.wr LSM303DLx_INT1_DURATION c.reg_dur,
    BusOp.wr LSM303DLx_CTRL_REG3 r.1,
    BusOp.wr LSM303DLx_INT1_CFG r.2,
    BusOp.rd LSM303DLx_HP_FILTER_RESET])

/-- `lsm303dlx_a_resume`: the fail-fast sequence; after each bus
operation, a non-zero status is returned immediately and no further
operation is issued. Issue order from the source: CTRL_REG1, CTRL_REG4
(full scale), CTRL_REG2, CTRL_REG3, INT1_THS, INT1_DURATION, INT1_CFG,
then the diagnostic HP_FILTER_RESET read. -/
def lsm303dlx_a_resume (c : lsm303dlx_a_config) (env : Nat → Int) :
    Int × List BusOp :=
  let r := irqRegPair c.irq_type c.mot_int1_cfg
  let o0 := BusOp.wr LSM303DLx_CTRL_REG1 c.ctrl_reg1
  if env 0 ≠ 0 then (env 0, [o0]) else
  let o1 := BusOp.wr LSM303DLx_CTRL_REG4 (applyFsrByte c.fsr)
  if env 1 ≠ 0 then (env 1, [o0, o1]) else
  let o2 := BusOp.wr LSM303DLx_CTRL_REG2 0x0F
  if env 2 ≠ 0 then (env 2, [o0, o1, o2]) else
  let o3 := BusOp.wr LSM303DLx_CTRL_REG3 r.1
  if env 3 ≠ 0 then (env 3, [o0, o1, o2, o3]) else
  let o4 := BusOp.wr LSM303DLx_INT1_THS c.reg_ths
  if env 4 ≠ 0 then (env 4, [o0, o1, o2, o3, o4]) else
  let o5 := BusOp.wr LSM303DLx_INT1_DURATION c.reg_dur
  if env 5 ≠ 0 then (env 5, [o0, o1, o2, o3, o4, o5]) else
  let o6 := BusOp.wr LSM303DLx_INT1_CFG r.2
  if env 6 ≠ 0 then (env 6, [o0, o1, o2, o3, o4, o5, o6]) else
  let o7 := BusOp.rd LSM303DLx_HP_FILTER_RESET
  (env 7, [o0, o1, o2, o3, o4, o5, o6, o7])

/-- The fixed register order of the resume sequence. -/
def resumeRegs : List Nat :=
  [LSM303DLx_CTRL_REG1, LSM303DLx_CTRL_REG4, LSM303DLx_CTRL_REG2,
   LSM303DLx_CTRL_REG3, LSM303DLx_INT1_THS, LSM303DLx_INT1_DURATION,
   LSM303DLx_INT1_CFG, LSM303DLx_HP_FILTER_RESET]

/-- Outcome of `lsm303dlx_a_read`: either the status of the burst read of
the sample registers, or the `INV_ERROR_ACCEL_DATA_NOT_READY` error. -/
inductive ReadOutcome where
  | ok (status : Int)
  | dataNotReady
deriving DecidableEq

/-- `lsm303dlx_a_read`: the status register is read first (its byte is the
argument `status_byte`); only when the low nibble `status_byte & 0x0F` is
non-zero is the burst read of the sample registers issued (the Bool
records whether it was issued, `burst_status` its transport status);
otherwise the function returns `INV_ERROR_ACCEL_DATA_NOT_READY` without
touching the sample registers. -/
def lsm303dlx_a_read (status_byte : Nat) (burst_status : Int) :
    ReadOutcome × Bool :=
  if status_byte &&& 0x0F ≠ 0 then (ReadOutcome.ok burst_status, true)
  else (ReadOutcome.dataNotReady, false)

/-- `lsm303dlx_a_init` (configuration part): `kzalloc` zero state, the
four seeded constants, then the non-applying setter calls in source
order. The default FSR request comes from
`range_fixedpoint_to_long_mg(slave->range)`, a helper outside `src/`;
its resulting mg value is taken here as the parameter `range`. -/
def lsm303dlx_a_init (range : Int) : lsm303dlx_a_private_data :=
  let s0 := { zeroConfig with ctrl_reg1 := 0x47, mot_int1_cfg := 0x2a }
  let r0 := { zeroConfig with ctrl_reg1 := 0x37, mot_int1_cfg := 0x95 }
  let s1 := lsm303dlx_a_set_odr s0 0
  let r1 := lsm303dlx_a_set_odr r0 200000
  let s2 := lsm303dlx_a_set_fsr s1 range
  let r2 := lsm303dlx_a_set_fsr r1 range
  let s3 := lsm303dlx_a_set_ths s2 80
  let r3 := lsm303dlx_a_set_ths r2 40
  let s4 := lsm303dlx_a_set_dur s3 1000
  let r4 := lsm303dlx_a_set_dur r3 2540
  let s5 := lsm303dlx_a_set_irq s4 (MPU_SLAVE_IRQ_TYPE_NONE : Nat)
  let r5 := lsm303dlx_a_set_irq r4 (MPU_SLAVE_IRQ_TYPE_NONE : Nat)
  { suspend := s5, resume := r5 }

/-- The invariant of a configuration record maintained by the setters:
the FSR is one of the three supported tiers, the threshold is strictly
below it, `reg_ths` and `reg_dur` are the derived encodings of the
physical fields (the duration encoding computed, as in the driver, in
32-bit arithmetic that wraps mod 2^32), and `dur` is in `unsigned int`
range. -/
abbrev ConfigInv (c : lsm303dlx_a_config) : Prop :=
  (c.fsr = 2048 ∨ c.fsr = 4096 ∨ c.fsr = 8192) ∧
  c.ths < c.fsr ∧
  c.reg_ths = c.ths * 128 / c.fsr ∧
  c.reg_dur = min (c.dur * c.odr % 4294967296 / 1000000) LSM303DLx_MAX_DUR ∧
  c.dur < 4294967296

/-- Characterization of `lsm303dlx_a_set_ths` on a configuration whose FSR
is one of the supported tiers, for requests in the representable `long`
range: the stored threshold is clamped into `[0, fsr-1]` (with negative
and over-range requests both landing on `fsr - 1`, because the source
compares the request as an `unsigned int`), the register encoding is the
128/fsr quantization of the stored threshold, and every other field is
untouched. -/
lemma set_ths_spec (c : lsm303dlx_a_config) (t : Int)
    (hf : c.fsr = 2048 ∨ c.fsr = 4096 ∨ c.fsr = 8192)
    (h1 : -2147483648 ≤ t) (h2 : t < 4294967296) :
    (lsm303dlx_a_set_ths c t).ths < c.fsr ∧
    ((t < 0 ∨ (c.fsr : Int) ≤ t) → (lsm303dlx_a_set_ths c t).ths = c.fsr - 1) ∧
    (0 ≤ t → t < (c.fsr : Int) → (lsm303dlx_a_set_ths c t).ths = t.toNat) ∧
    (lsm303dlx_a_set_ths c t).reg_ths =
      (lsm303dlx_a_set_ths c t).ths * 128 / c.fsr ∧
    (lsm303dlx_a_set_ths c t).fsr = c.fsr ∧
    (lsm303dlx_a_set_ths c t).dur = c.dur ∧
    (lsm303dlx_a_set_ths c t).odr = c.odr ∧
    (lsm303dlx_a_set_ths c t).reg_dur = c.reg_dur ∧
    (lsm303dlx_a_set_ths c t).ctrl_reg1 = c.ctrl_reg1 ∧
    (lsm303dlx_a_set_ths c t).irq_type = c.irq_type ∧
    (lsm303dlx_a_set_ths c t).mot_int1_cfg = c.mot_int1_cfg := by
  rcases hf with h | h | h <;>
    (simp only [lsm303dlx_a_set_ths, uintCast, h, ge_iff_le] ;
     split_ifs with hc <;>
       (refine ⟨?_, ?_, ?_, ?_, trivial, trivial, trivial, trivial, trivial,
          trivial, trivial⟩ <;> omega))

/-- Characterization of `lsm303dlx_a_set_dur` for a non-negative request:
the stored `dur` is the request reduced to `unsigned int` range, the
register encoding is the ODR-scaled value computed mod 2^32 (the 32-bit
product wraps) and clamped at `LSM303DLx_MAX_DUR`, and every other field
is untouched. -/
lemma set_dur_spec (c : lsm303dlx_a_config) (d : Int) (h1 : 0 ≤ d) :
    (lsm303dlx_a_set_dur c d).dur = d.toNat % 4294967296 ∧
    (lsm303dlx_a_set_dur c d).reg_dur =
      min (d.toNat % 4294967296 * c.odr % 4294967296 / 1000000)
        LSM303DLx_MAX_DUR ∧
    (lsm303dlx_a_set_dur c d).odr = c.odr ∧
    (lsm303dlx_a_set_dur c d).fsr = c.fsr ∧
    (lsm303dlx_a_set_dur c d).ths = c.ths ∧
    (lsm303dlx_a_set_dur c d).reg_ths = c.reg_ths ∧
    (lsm303dlx_a_set_dur c d).ctrl_reg1 = c.ctrl_reg1 ∧
    (lsm303dlx_a_set_dur c d).irq_type = c.irq_type ∧
    (lsm303dlx_a_set_dur c d).mot_int1_cfg = c.mot_int1_cfg := by
  have hu : uintCast d = d.toNat % 4294967296 := by
    unfold uintCast
    omega
  refine ⟨hu, ?_, rfl, rfl, rfl, rfl, rfl, rfl, rfl⟩
  simp only [lsm303dlx_a_set_dur, hu, LSM303DLx_MAX_DUR]
  split_ifs with hc <;> omega

/-- Tier table of `odrBits`: exactly one input interval applies and
determines the canonical stored rate. -/
lemma odrBits_cases (x : Int) :
    (x > 400000 ∧ (odrBits x).1 = 1000000) ∨
    (x ≤ 400000 ∧ x > 100000 ∧ (odrBits x).1 = 400000) ∨
    (x ≤ 100000 ∧ x > 50000 ∧ (odrBits x).1 = 100000) ∨
    (x ≤ 50000 ∧ x > 10000 ∧ (odrBits x).1 = 50000) ∨
    (x ≤ 10000 ∧ x > 5000 ∧ (odrBits x).1 = 10000) ∨
    (x ≤ 5000 ∧ x > 2000 ∧ (odrBits x).1 = 5000) ∨
    (x ≤ 2000 ∧ x > 1000 ∧ (odrBits x).1 = 2000) ∨
    (x ≤ 1000 ∧ x > 500 ∧ (odrBits x).1 = 1000) ∨
    (x ≤ 500 ∧ x > 0 ∧ (odrBits x).1 = 500) ∨
    (x ≤ 0 ∧ (odrBits x).1 = 0) := by
  unfold odrBits
  split_ifs <;> dsimp only <;> omega

/-- The selected rate is monotone in the request. -/
lemma odrBits_mono (x y : Int) (h : x ≤ y) :
    (odrBits x).1 ≤ (odrBits y).1 := by
  have hx := odrBits_cases x
  have hy := odrBits_cases y
  omega

/-- The selected rate belongs to the fixed enumerated rate set. -/
lemma odrBits_mem (x : Int) :
    (odrBits x).1 ∈ ([0, 500, 1000, 2000, 5000, 10000, 50000, 100000,
      400000, 1000000] : List Nat) := by
  have hx := odrBits_cases x
  rcases hx with h | h | h | h | h | h | h | h | h | h <;> simp [h.2]

/-- Every rate/power bit pattern of the tier table has its low 3 bits clear. -/
lemma odrBits_low3 (x : Int) : (odrBits x).2 &&& 7 = 0 := by
  unfold odrBits
  split_ifs <;> rfl

/-- Or-ing a byte whose low 3 bits are clear onto a masked low-3-bit field
leaves the low 3 bits of the result equal to those of the field. -/
lemma lor_low3 (b x : Nat) (hb : b &&& 7 = 0) :
    (b ||| (x &&& 7)) &&& 7 = x &&& 7 := by
  apply Nat.eq_of_testBit_eq
  intro i
  have hbi := congrArg (fun n => n.testBit i) hb
  simp only [Nat.testBit_land, Nat.testBit_lor, Nat.zero_testBit] at hbi ⊢
  cases hb1 : b.testBit i <;> cases hb7 : Nat.testBit 7 i <;> simp_all

/-- Characterization of `lsm303dlx_a_set_odr`: the stored rate and
control byte come from the tier table, the duration encoding is
re-derived against the new rate, and the remaining fields are untouched
(`dur` modulo its `unsigned int` store). -/
lemma set_odr_spec (c : lsm303dlx_a_config) (x : Int) :
    (lsm303dlx_a_set_odr c x).odr = (odrBits x).1 ∧
    (lsm303dlx_a_set_odr c x).ctrl_reg1 =
      (odrBits x).2 ||| (c.ctrl_reg1 &&& 7) ∧
    (lsm303dlx_a_set_odr c x).fsr = c.fsr ∧
    (lsm303dlx_a_set_odr c x).ths = c.ths ∧
    (lsm303dlx_a_set_odr c x).reg_ths = c.reg_ths ∧
    (lsm303dlx_a_set_odr c x).dur = c.dur % 4294967296 ∧
    (lsm303dlx_a_set_odr c x).reg_dur =
      min (c.dur % 4294967296 * (odrBits x).1 % 4294967296 / 1000000)
        LSM303DLx_MAX_DUR ∧
    (lsm303dlx_a_set_odr c x).irq_type = c.irq_type ∧
    (lsm303dlx_a_set_odr c x).mot_int1_cfg = c.mot_int1_cfg := by
  have h := set_dur_spec
    { c with odr := (odrBits x).1
           , ctrl_reg1 := (odrBits x).2 ||| (c.ctrl_reg1 &&& 7) }
    (c.dur : Int) (Int.natCast_nonneg _)
  simp only [Int.toNat_natCast] at h
  exact ⟨h.2.2.1, h.2.2.2.2.2.2.1, h.2.2.2.1, h.2.2.2.2.1, h.2.2.2.2.2.1,
    h.1, h.2.1, h.2.2.2.2.2.2.2.1, h.2.2.2.2.2.2.2.2⟩

/-- Characterization of `lsm303dlx_a_set_fsr`: the stored FSR is the
selected tier, the threshold is re-clamped and re-encoded against it,
and the remaining fields are untouched. -/
lemma set_fsr_spec (c : lsm303dlx_a_config) (f : Int)
    (hths : c.ths < 4294967296) :
    ((lsm303dlx_a_set_fsr c f).fsr =
      if f ≤ 2048 then 2048 else if f ≤ 4096 then 4096 else 8192) ∧
    (lsm303dlx_a_set_fsr c f).ths < (lsm303dlx_a_set_fsr c f).fsr ∧
    (lsm303dlx_a_set_fsr c f).reg_ths =
      (lsm303dlx_a_set_fsr c f).ths * 128 / (lsm303dlx_a_set_fsr c f).fsr ∧
    (lsm303dlx_a_set_fsr c f).dur = c.dur ∧
    (lsm303dlx_a_set_fsr c f).odr = c.odr ∧
    (lsm303dlx_a_set_fsr c f).reg_dur = c.reg_dur ∧
    (lsm303dlx_a_set_fsr c f).ctrl_reg1 = c.ctrl_reg1 ∧
    (lsm303dlx_a_set_fsr c f).irq_type = c.irq_type ∧
    (lsm303dlx_a_set_fsr c f).mot_int1_cfg = c.mot_int1_cfg := by
  have h := set_ths_spec
    { c with fsr := if f ≤ 2048 then 2048 else if f ≤ 4096 then 4096 else 8192 }
    (c.ths : Int)
    (by split_ifs <;> simp)
    (by omega)
    (by omega)
  exact ⟨h.2.2.2.2.1, h.1, h.2.2.2.1, h.2.2.2.2.2.1, h.2.2.2.2.2.2.1,
    h.2.2.2.2.2.2.2.1, h.2.2.2.2.2.2.2.2.1, h.2.2.2.2.2.2.2.2.2.1,
    h.2.2.2.2.2.2.2.2.2.2⟩


lemma set_irq_pres (c : lsm303dlx_a_config) (i : Int) (hc : ConfigInv c) :
    ConfigInv (lsm303dlx_a_set_irq c i) := hc

lemma set_ths_pres (c : lsm303dlx_a_config) (t : Int) (hc : ConfigInv c)
    (h1 : -2147483648 ≤ t) (h2 : t < 4294967296) :
    ConfigInv (lsm303dlx_a_set_ths c t) := by
  obtain ⟨hf, _, _, hrd, hdb⟩ := hc
  obtain ⟨a1, _, _, a4, a5, a6, a7, a8, _, _, _⟩ := set_ths_spec c t hf h1 h2
  refine ⟨by rw [a5]; exact hf, by rw [a5]; exact a1, by rw [a5]; exact a4,
    ?_, by rw [a6]; exact hdb⟩
  rw [a8, a6, a7, hrd]

lemma set_dur_pres (c : lsm303dlx_a_config) (d : Int) (hc : ConfigInv c)
    (h1 : 0 ≤ d) (h2 : d < 4294967296) :
    ConfigInv (lsm303dlx_a_set_dur c d) := by
  obtain ⟨hf, hth, hrt, _, _⟩ := hc
  obtain ⟨a1, a2, a3, a4, a5, a6, _, _, _⟩ := set_dur_spec c d h1
  have hdn : d.toNat % 4294967296 = d.toNat := by omega
  refine ⟨by rw [a4]; exact hf, by rw [a5, a4]; exact hth,
    by rw [a6, a5, a4]; exact hrt, ?_, by omega⟩
  rw [a2, a1, a3, hdn]

lemma set_odr_pres (c : lsm303dlx_a_config) (x : Int) (hc : ConfigInv c) :
    ConfigInv (lsm303dlx_a_set_odr c x) := by
  obtain ⟨hf, hth, hrt, _, hdb⟩ := hc
  obtain ⟨a1, _, a3, a4, a5, a6, a7, _, _⟩ := set_odr_spec c x
  have hdn : c.dur % 4294967296 = c.dur := by omega
  refine ⟨by rw [a3]; exact hf, by rw [a4, a3]; exact hth,
    by rw [a5, a4, a3]; exact hrt, ?_, by omega⟩
  rw [a7, a6, a1, hdn]

lemma set_fsr_estab (c : lsm303dlx_a_config) (f : Int)
    (hths : c.ths < 4294967296)
    (hrd : c.reg_dur =
      min (c.dur * c.odr % 4294967296 / 1000000) LSM303DLx_MAX_DUR)
    (hdb : c.dur < 4294967296) :
    ConfigInv (lsm303dlx_a_set_fsr c f) := by
  obtain ⟨b1, b2, b3, b4, b5, b6, _, _, _⟩ := set_fsr_spec c f hths
  refine ⟨?_, b2, b3, ?_, by rw [b4]; exact hdb⟩
  · rw [b1]; split_ifs <;> simp
  · rw [b6, b4, b5, hrd]

lemma set_fsr_pres (c : lsm303dlx_a_config) (f : Int) (hc : ConfigInv c) :
    ConfigInv (lsm303dlx_a_set_fsr c f) := by
  obtain ⟨hf, hth, _, hrd, hdb⟩ := hc
  exact set_fsr_estab c f (by omega) hrd hdb

lemma init_inv (r : Int) :
    ConfigInv ((lsm303dlx_a_init r).suspend) ∧
    ConfigInv ((lsm303dlx_a_init r).resume) := by
  constructor
  · exact set_irq_pres _ _ (set_dur_pres _ _ (set_ths_pres _ _
      (set_fsr_estab _ r (by decide) (by decide) (by decide))
      (by omega) (by omega)) (by omega) (by omega))
  · exact set_irq_pres _ _ (set_dur_pres _ _ (set_ths_pres _ _
      (set_fsr_estab _ r (by decide) (by decide) (by decide))
      (by omega) (by omega)) (by omega) (by omega))

/-- The FSR tier stored by `lsm303dlx_a_set_fsr` (the threshold recompute
does not touch the `fsr` field). -/
lemma set_fsr_fsr (c : lsm303dlx_a_config) (f : Int) :
    (lsm303dlx_a_set_fsr c f).fsr =
      (if f ≤ 2048 then 2048 else if f ≤ 4096 then 4096 else 8192) := rfl

/-- C2: `lsm303dlx_a_resume` is fail-fast: if the first `k` bus operations
succeed and the (k+1)-st reports a non-zero status, the function returns
that status and the issued trace is exactly the first `k+1` operations of
the fixed sequence; in particular a failure of the full-scale (CTRL_REG4)
write aborts before the threshold, duration and interrupt-config writes. -/
theorem C2_resume_fail_fast (c : lsm303dlx_a_config) (env : Nat → Int)
    (k : Nat) (hk : k < 8) (hpre : ∀ i, i < k → env i = 0)
    (hfail : env k ≠ 0) :
    (lsm303dlx_a_resume c env).1 = env k ∧
    (lsm303dlx_a_resume c env).2.map busReg = resumeRegs.take (k + 1) ∧
    (k = 1 →
      (lsm303dlx_a_resume c env).2.map busReg =
        [LSM303DLx_CTRL_REG1, LSM303DLx_CTRL_REG4] ∧
      LSM303DLx_INT1_THS ∉ (lsm303dlx_a_resume c env).2.map busReg ∧
      LSM303DLx_INT1_DURATION ∉ (lsm303dlx_a_resume c env).2.map busReg ∧
      LSM303DLx_INT1_CFG ∉ (lsm303dlx_a_resume c env).2.map busReg) := by
  interval_cases k
  · simp [lsm303dlx_a_resume, hfail, busReg, resumeRegs]
  · have e0 := hpre 0 (by omega)
    simp [lsm303dlx_a_resume, e0, hfail, busReg, resumeRegs,
      LSM303DLx_INT1_THS, LSM303DLx_INT1_DURATION, LSM303DLx_INT1_CFG,
      LSM303DLx_CTRL_REG1, LSM303DLx_CTRL_REG4]
  · have e0 := hpre 0 (by omega); have e1 := hpre 1 (by omega)
    simp [lsm303dlx_a_resume, e0, e1, hfail, busReg, resumeRegs]
  · have e0 := hpre 0 (by omega); have e1 := hpre 1 (by omega)
    have e2 := hpre 2 (by omega)
    simp [lsm303dlx_a_resume, e0, e1, e2, hfail, busReg, resumeRegs]
  · have e0 := hpre 0 (by omega); have e1 := hpre 1 (by omega)
    have e2 := hpre 2 (by omega); have e3 := hpre 3 (by omega)
    simp [lsm303dlx_a_resume, e0, e1, e2, e3, hfail, busReg, resumeRegs]
  · have e0 := hpre 0 (by omega); have e1 := hpre 1 (by omega)
    have e2 := hpre 2 (by omega); have e3 := hpre 3 (by omega)
    have e4 := hpre 4 (by omega)
    simp [lsm303dlx_a_resume, e0, e1, e2, e3, e4, hfail, busReg, resumeRegs]
  · have e0 := hpre 0 (by omega); have e1 := hpre 1 (by omega)
    have e2 := hpre 2 (by omega); have e3 := hpre 3 (by omega)
    have e4 := hpre 4 (by omega); have e5 := hpre 5 (by omega)
    simp [lsm303dlx_a_resume, e0, e1, e2, e3, e4, e5, hfail, busReg, resumeRegs]
  · have e0 := hpre 0 (by omega); have e1 := hpre 1 (by omega)
    have e2 := hpre 2 (by omega); have e3 := hpre 3 (by omega)
    have e4 := hpre 4 (by omega); have e5 := hpre 5 (by omega)
    have e6 := hpre 6 (by omega)
    simp [lsm303dlx_a_resume, e0, e1, e2, e3, e4, e5, e6, hfail, busReg,
      resumeRegs]

/-- Witness for C2 at a concrete failing full-scale write. -/
theorem C2_resume_fail_fast_witness :
    (lsm303dlx_a_resume zeroConfig
      (fun i => if i = 1 then 5 else 0)).1 = 5 ∧
    (lsm303dlx_a_resume zeroConfig
      (fun i => if i = 1 then 5 else 0)).2.map busReg =
      [LSM303DLx_CTRL_REG1, LSM303DLx_CTRL_REG4] := by
  have h := C2_resume_fail_fast zeroConfig
    (fun i => if i = 1 then 5 else 0) 1 (by omega)
    (by intro i hi; interval_cases i; rfl) (by decide)
  exact ⟨h.1, (h.2.2 rfl).1⟩

/-- C3: `lsm303dlx_a_suspend` is best-effort: for every configuration and
every pattern of per-step transport statuses, all seven writes and the
final diagnostic read are issued (the trace is the full fixed sequence),
and the returned status is that of the final HP_FILTER_RESET read alone. -/
theorem C3_suspend_best_effort (c : lsm303dlx_a_config) (env : Nat → Int) :
    (lsm303dlx_a_suspend c env).1 = env 7 ∧
    (lsm303dlx_a_suspend c env).2.map busReg =
      [LSM303DLx_CTRL_REG1, LSM303DLx_CTRL_REG2, LSM303DLx_CTRL_REG4,
       LSM303DLx_INT1_THS, LSM303DLx_INT1_DURATION, LSM303DLx_CTRL_REG3,
       LSM303DLx_INT1_CFG, LSM303DLx_HP_FILTER_RESET] ∧
    (lsm303dlx_a_suspend c env).2.length = 8 := by
  simp [lsm303dlx_a_suspend, busReg]

/-- C1 counterexample: the claimed exact register-derivation invariant
`reg_dur = min (dur * odr / 1000000) MAX_DUR` fails after setter
operations reachable from initialization: selecting the 1 kHz tier
(`set_odr 500000` stores `odr = 1000000`) and then `set_dur 4295` makes
the driver's 32-bit product `4295 * 1000000` wrap mod 2^32 to 32704, so
the stored encoding is 0 while the claimed formula gives
`min 4295 MAX_DUR = 127`. -/
theorem C1_overflow_counterexample :
    (lsm303dlx_a_set_dur
      (lsm303dlx_a_set_odr ((lsm303dlx_a_init 2480).resume) 500000)
      4295).reg_dur = 0 ∧
    (lsm303dlx_a_set_dur
      (lsm303dlx_a_set_odr ((lsm303dlx_a_init 2480).resume) 500000)
      4295).dur = 4295 ∧
    (lsm303dlx_a_set_dur
      (lsm303dlx_a_set_odr ((lsm303dlx_a_init 2480).resume) 500000)
      4295).odr = 1000000 ∧
    (lsm303dlx_a_set_dur
      (lsm303dlx_a_set_odr ((lsm303dlx_a_init 2480).resume) 500000)
      4295).reg_dur ≠
      min ((lsm303dlx_a_set_dur
              (lsm303dlx_a_set_odr ((lsm303dlx_a_init 2480).resume) 500000)
              4295).dur *
            (lsm303dlx_a_set_dur
              (lsm303dlx_a_set_odr ((lsm303dlx_a_init 2480).resume) 500000)
              4295).odr / 1000000)
        LSM303DLx_MAX_DUR := by
  decide

/-- C1 (amended): after initialization (for any nominal range) and after
every setter on an invariant-satisfying configuration (with the setter
request in representable range), the configuration invariant holds: the
FSR is a supported tier, `ths < fsr`, `reg_ths = ths * 128 / fsr`, and
`reg_dur = min (dur * odr mod 2^32 / 1000000) MAX_DUR` — the duration
product is computed in the driver's 32-bit arithmetic and wraps, agreeing
with the claimed exact formula whenever `dur * odr < 2^32`; in particular
`set_odr` re-derives `reg_dur` from the new ODR and `set_fsr` re-clamps
and re-encodes the threshold against the new FSR. -/
theorem C1_config_invariants_amended (r x f t d i : Int)
    (c : lsm303dlx_a_config) (hc : ConfigInv c)
    (ht1 : -2147483648 ≤ t) (ht2 : t < 4294967296)
    (hd1 : 0 ≤ d) (hd2 : d < 4294967296) :
    ConfigInv ((lsm303dlx_a_init r).suspend) ∧
    ConfigInv ((lsm303dlx_a_init r).resume) ∧
    ConfigInv (lsm303dlx_a_set_odr c x) ∧
    ConfigInv (lsm303dlx_a_set_fsr c f) ∧
    ConfigInv (lsm303dlx_a_set_ths c t) ∧
    ConfigInv (lsm303dlx_a_set_dur c d) ∧
    ConfigInv (lsm303dlx_a_set_irq c i) :=
  ⟨(init_inv r).1, (init_inv r).2, set_odr_pres c x hc, set_fsr_pres c f hc,
   set_ths_pres c t hc ht1 ht2, set_dur_pres c d hc hd1 hd2,
   set_irq_pres c i hc⟩

/-- Witness for C1 at the factory-default resume configuration. -/
theorem C1_config_invariants_amended_witness :
    ConfigInv ((lsm303dlx_a_init 2480).resume) ∧
    ConfigInv (lsm303dlx_a_set_fsr ((lsm303dlx_a_init 2480).resume) 2048) := by
  have h := C1_config_invariants_amended 2480 200000 2048 40 2540 0
    ((lsm303dlx_a_init 2480).resume)
    (by decide) (by decide) (by decide) (by decide) (by decide)
  exact ⟨h.2.1, h.2.2.2.1⟩

/-- C4 counterexample: a negative threshold request is compared as a large
unsigned value and is stored as `fsr - 1 = 4095`, not floored to 0 as the
claim states. -/
theorem C4_negative_ths_counterexample :
    (lsm303dlx_a_set_ths { zeroConfig with fsr := 4096 } (-1)).ths = 4095 ∧
    (lsm303dlx_a_set_ths { zeroConfig with fsr := 4096 } (-1)).ths ≠ 0 := by
  decide

/-- C4 (amended): `set_ths` clamps the stored threshold into
`[0, fsr - 1]`; requests ≥ fsr are pulled down to `fsr - 1` and negative
requests, compared as unsigned values, are also pulled to `fsr - 1` (not
floored to 0); `reg_ths = ths * 128 / fsr`; and `set_ths 5000` at
`fsr = 4096` stores `ths = 4095` with `reg_ths = 127`. -/
theorem C4_ths_clamp_amended (c : lsm303dlx_a_config) (t : Int)
    (hf : c.fsr = 2048 ∨ c.fsr = 4096 ∨ c.fsr = 8192)
    (h1 : -2147483648 ≤ t) (h2 : t < 4294967296) :
    (lsm303dlx_a_set_ths c t).ths < c.fsr ∧
    ((c.fsr : Int) ≤ t → (lsm303dlx_a_set_ths c t).ths = c.fsr - 1) ∧
    (t < 0 → (lsm303dlx_a_set_ths c t).ths = c.fsr - 1) ∧
    (0 ≤ t → t < (c.fsr : Int) → (lsm303dlx_a_set_ths c t).ths = t.toNat) ∧
    (lsm303dlx_a_set_ths c t).reg_ths =
      (lsm303dlx_a_set_ths c t).ths * 128 / c.fsr ∧
    (lsm303dlx_a_set_ths { zeroConfig with fsr := 4096 } 5000).ths = 4095 ∧
    (lsm303dlx_a_set_ths { zeroConfig with fsr := 4096 } 5000).reg_ths = 127 := by
  obtain ⟨a1, a2, a3, a4, _⟩ := set_ths_spec c t hf h1 h2
  exact ⟨a1, fun h => a2 (Or.inr h), fun h => a2 (Or.inl h), a3, a4,
    by decide, by decide⟩

/-- Witness for C4 at the spec scenario `set_ths 5000` with `fsr = 4096`. -/
theorem C4_ths_clamp_amended_witness :
    (lsm303dlx_a_set_ths { zeroConfig with fsr := 4096 } 5000).ths = 4095 ∧
    (lsm303dlx_a_set_ths { zeroConfig with fsr := 4096 } 5000).reg_ths = 127 := by
  have h := C4_ths_clamp_amended { zeroConfig with fsr := 4096 } 5000
    (by decide) (by decide) (by decide)
  exact ⟨h.2.2.2.2.2.1, h.2.2.2.2.2.2⟩

/-- C5 (code bug evidence): the CTRL_REG4 full-scale byte computed by the
immediate-apply path of `set_fsr` disagrees with the byte recomputed by
the suspend/resume programming path on the 4096 and 8192 tiers (the two
2-bit selectors are swapped); the paths agree only on the 2048 tier. -/
theorem C5_fsr_byte_mismatch :
    setFsrByte 2048 = applyFsrByte 2048 ∧
    setFsrByte 4096 = 0x70 ∧ applyFsrByte 4096 = 0x50 ∧
    setFsrByte 8192 = 0x50 ∧ applyFsrByte 8192 = 0x70 ∧
    setFsrByte 4096 ≠ applyFsrByte 4096 ∧
    setFsrByte 8192 ≠ applyFsrByte 8192 := by
  decide

/-- C6 counterexample: a request of 99999 mHz falls in the `> 50000` tier
and stores `odr = 100000`, not 50000 as the claim states. -/
theorem C6_odr_99999_counterexample :
    (lsm303dlx_a_set_odr zeroConfig 99999).odr = 100000 ∧
    (lsm303dlx_a_set_odr zeroConfig 99999).odr ≠ 50000 := by
  decide

/-- C6 (amended): the stored ODR is always a member of the fixed
enumerated rate set and is monotone non-decreasing in the request; a
request of 99999 yields 100000 (the driver rounds up within a tier, not
down) and a request of 100001 yields 400000. -/
theorem C6_odr_mem_mono_amended (c : lsm303dlx_a_config) (x y : Int)
    (hxy : x ≤ y) :
    (lsm303dlx_a_set_odr c x).odr ∈ ([0, 500, 1000, 2000, 5000, 10000,
      50000, 100000, 400000, 1000000] : List Nat) ∧
    (lsm303dlx_a_set_odr c x).odr ≤ (lsm303dlx_a_set_odr c y).odr ∧
    (lsm303dlx_a_set_odr zeroConfig 99999).odr = 100000 ∧
    (lsm303dlx_a_set_odr zeroConfig 100001).odr = 400000 := by
  refine ⟨?_, ?_, by decide, by decide⟩
  · rw [(set_odr_spec c x).1]
    exact odrBits_mem x
  · rw [(set_odr_spec c x).1, (set_odr_spec c y).1]
    exact odrBits_mono x y hxy

/-- Witness for C6 at the tier boundary 99999 ≤ 100001. -/
theorem C6_odr_mem_mono_amended_witness :
    (lsm303dlx_a_set_odr zeroConfig 99999).odr ∈ ([0, 500, 1000, 2000,
      5000, 10000, 50000, 100000, 400000, 1000000] : List Nat) ∧
    (lsm303dlx_a_set_odr zeroConfig 99999).odr ≤
      (lsm303dlx_a_set_odr zeroConfig 100001).odr := by
  have h := C6_odr_mem_mono_amended zeroConfig 99999 100001 (by decide)
  exact ⟨h.1, h.2.1⟩

/-- C7 counterexample: the claimed formula
`reg_dur = min (dur * odr / 1000000) MAX_DUR` fails inside the request
domain: at `odr = 1000000` (the 1 kHz tier) a request of 4295 ms makes
the driver's 32-bit product `4295 * 1000000` wrap mod 2^32 to 32704, so
the stored encoding is 0 while the claimed formula gives
`min 4295 MAX_DUR = 127`. -/
theorem C7_overflow_counterexample :
    (lsm303dlx_a_set_dur { zeroConfig with odr := 1000000 } 4295).reg_dur = 0 ∧
    (lsm303dlx_a_set_dur { zeroConfig with odr := 1000000 } 4295).reg_dur ≠
      min ((4295 : Nat) * 1000000 / 1000000) LSM303DLx_MAX_DUR := by
  decide

/-- C7 (amended): for every requested duration in `unsigned int` range
and every current odr, `set_dur` stores
`reg_dur = min (dur * odr mod 2^32 / 1000000) MAX_DUR` — the product is
computed in the driver's 32-bit arithmetic and wraps — which equals the
claimed `min (dur * odr / 1000000) MAX_DUR` whenever `dur * odr < 2^32`;
the stored physical `dur` field equals the raw requested value without
any clamping. -/
theorem C7_dur_encoding_amended (c : lsm303dlx_a_config) (d : Int)
    (h1 : 0 ≤ d) (h2 : d < 4294967296) :
    (lsm303dlx_a_set_dur c d).dur = d.toNat ∧
    (lsm303dlx_a_set_dur c d).reg_dur =
      min (d.toNat * c.odr % 4294967296 / 1000000) LSM303DLx_MAX_DUR ∧
    (d.toNat * c.odr < 4294967296 →
      (lsm303dlx_a_set_dur c d).reg_dur =
        min (d.toNat * c.odr / 1000000) LSM303DLx_MAX_DUR) := by
  obtain ⟨a1, a2, _⟩ := set_dur_spec c d h1
  have hdn : d.toNat % 4294967296 = d.toNat := by omega
  rw [hdn] at a2
  refine ⟨by rw [a1, hdn], a2, ?_⟩
  intro hov
  rw [a2]
  have hm : d.toNat * c.odr % 4294967296 = d.toNat * c.odr := by omega
  rw [hm]

/-- Witness for C7: a 2540 ms request at 400 Hz (product within 32 bits)
stores `dur = 2540` unclamped while the encoding saturates at
`MAX_DUR = 127`. -/
theorem C7_dur_encoding_amended_witness :
    (lsm303dlx_a_set_dur { zeroConfig with odr := 400000 } 2540).dur = 2540 ∧
    (lsm303dlx_a_set_dur { zeroConfig with odr := 400000 } 2540).reg_dur = 127 := by
  have h := C7_dur_encoding_amended { zeroConfig with odr := 400000 } 2540
    (by decide) (by decide)
  exact ⟨h.1, by rw [h.2.2 (by decide)]; decide⟩

/-- C8: the stored FSR is always one of {2048, 4096, 8192} and dominates
any request ≤ 8192 (saturating above); `set_fsr 6000` stores 8192 and its
immediate-apply register byte is `0x40 ||| 0x10 = 0x50`. -/
theorem C8_fsr_tiers (c : lsm303dlx_a_config) (f : Int) :
    ((lsm303dlx_a_set_fsr c f).fsr = 2048 ∨
     (lsm303dlx_a_set_fsr c f).fsr = 4096 ∨
     (lsm303dlx_a_set_fsr c f).fsr = 8192) ∧
    (f ≤ 8192 → f ≤ ((lsm303dlx_a_set_fsr c f).fsr : Int)) ∧
    (lsm303dlx_a_set_fsr zeroConfig 6000).fsr = 8192 ∧
    setFsrByte 6000 = 0x50 := by
  rw [set_fsr_fsr]
  refine ⟨by split_ifs <;> simp, ?_, by decide, by decide⟩
  intro h8
  split_ifs <;> omega

/-- Witness for C8 at the spec scenario `set_fsr 6000`. -/
theorem C8_fsr_tiers_witness :
    (6000 : Int) ≤ ((lsm303dlx_a_set_fsr zeroConfig 6000).fsr : Int) ∧
    (lsm303dlx_a_set_fsr zeroConfig 6000).fsr = 8192 := by
  have h := C8_fsr_tiers zeroConfig 6000
  exact ⟨h.2.1 (by decide), h.2.2.1⟩

/-- C9: `lsm303dlx_a_read` issues the burst read of the sample registers
if and only if the status byte's data-ready low nibble is non-zero; a
status byte of 0x00 yields the data-not-ready error with no burst read. -/
theorem C9_read_data_ready_gate (sb : Nat) (bs : Int) :
    ((lsm303dlx_a_read sb bs).2 = true ↔ sb &&& 0x0F ≠ 0) ∧
    (sb = 0 → lsm303dlx_a_read sb bs = (ReadOutcome.dataNotReady, false)) := by
  unfold lsm303dlx_a_read
  split_ifs with h
  · refine ⟨by simp [h], ?_⟩
    intro h0
    subst h0
    simp at h
  · simp_all

/-- Witness for C9 at status byte 0x00. -/
theorem C9_read_data_ready_gate_witness :
    lsm303dlx_a_read 0 3 = (ReadOutcome.dataNotReady, false) := by
  exact (C9_read_data_ready_gate 0 3).2 rfl

/-- C10: `set_odr` preserves the low 3 bits of `ctrl_reg1` (OR-combining
them with the tier's rate bits) and mutates no configuration field other
than `odr`, `ctrl_reg1` and `reg_dur`; `set_odr 200000` on a prior
`ctrl_reg1 = 0` selects the `> 100000` tier, storing `odr = 400000` and
`ctrl_reg1 = 0x30`. -/
theorem C10_odr_frame_low_bits (c : lsm303dlx_a_config) (x : Int) :
    (lsm303dlx_a_set_odr c x).ctrl_reg1 &&& 7 = c.ctrl_reg1 &&& 7 ∧
    (lsm303dlx_a_set_odr c x).fsr = c.fsr ∧
    (lsm303dlx_a_set_odr c x).ths = c.ths ∧
    (lsm303dlx_a_set_odr c x).reg_ths = c.reg_ths ∧
    (lsm303dlx_a_set_odr c x).irq_type = c.irq_type ∧
    (lsm303dlx_a_set_odr c x).mot_int1_cfg = c.mot_int1_cfg ∧
    (c.dur < 4294967296 → (lsm303dlx_a_set_odr c x).dur = c.dur) ∧
    (lsm303dlx_a_set_odr zeroConfig 200000).odr = 400000 ∧
    (lsm303dlx_a_set_odr zeroConfig 200000).ctrl_reg1 = 0x30 := by
  obtain ⟨a1, a2, a3, a4, a5, a6, a7, a8, a9⟩ := set_odr_spec c x
  refine ⟨?_, a3, a4, a5, a8, a9, ?_, by decide, by decide⟩
  · rw [a2]
    exact lor_low3 _ _ (odrBits_low3 x)
  · intro hb
    rw [a6]
    omega

/-- Witness for C10 at the spec scenario `set_odr 200000` on a
configuration with low control bits set. -/
theorem C10_odr_frame_low_bits_witness :
    (lsm303dlx_a_set_odr { zeroConfig with ctrl_reg1 := 0x45 } 200000).ctrl_reg1 &&& 7 =
      (0x45 : Nat) &&& 7 ∧
    (lsm303dlx_a_set_odr { zeroConfig with ctrl_reg1 := 0x45 } 200000).dur = 0 := by
  have h := C10_odr_frame_low_bits { zeroConfig with ctrl_reg1 := 0x45 } 200000
  exact ⟨h.1, h.2.2.2.2.2.2.1 (by decide)⟩

end Lsm303
